import Mathlib

/-!
Shallow embedding of the CUDA image-function layer of penguinV
(`Library/cuda/image_function_cuda.cu`).

Machine integers are modelled as `Nat` with an explicit `% 2 ^ 32`
exactly where the source computes in 32-bit unsigned arithmetic
(`uint32_t` sums and products).  Pixel samples are bytes, kept as `Nat`
with the invariant that they are below 256.  The CUDA runtime itself
(`cudaMalloc` inside the image constructor, `cudaGetLastError`,
`cudaMemcpy`) is external to the repository: launches and copies are
modelled as succeeding, and each facade records the device effects it
performs (allocation, kernel launch) in an explicit trace so that
host-side ordering facts — what has already touched the device when a
validation failure is raised — are visible in the model.
-/

/-- Device image handle.  Modelled from the spec: the `BitmapImageCuda`
container is declared outside this translation unit; the spec describes
it as owning a flat, unpadded device byte buffer of `width * height`
bytes, with 32-bit dimensions. -/
structure ImageCuda where
  width : Nat
  height : Nat
  data : List Nat
deriving DecidableEq

/-- Modelled from the spec: `empty()` reports true iff `width == 0` or
`height == 0`. -/
def ImageCuda.empty (img : ImageCuda) : Bool :=
  img.width == 0 || img.height == 0

/-- A well-formed device image: a buffer of exactly `width * height`
bytes, `uint32_t` dimensions, byte-valued samples. -/
def ImageCuda.valid (img : ImageCuda) : Prop :=
  img.data.length = img.width * img.height ∧
  img.width < 2 ^ 32 ∧ img.height < 2 ^ 32 ∧
  ∀ b ∈ img.data, b < 256

instance (img : ImageCuda) : Decidable img.valid := by
  unfold ImageCuda.valid
  infer_instance

/-- Modelled from the spec: the `ImageCuda(width, height)` constructor
allocates a `width * height`-byte device buffer.  Freshly allocated
device memory has unspecified contents; the model takes it zero-filled. -/
def ImageCuda.construct (w h : Nat) : ImageCuda :=
  ⟨w, h, List.replicate (w * h) 0⟩

namespace Bitmap_Image

/-- Host-side image (the external collaborator `Bitmap_Image::Image`):
dimensions, a row stride `rowSize` that may exceed `width` (padding),
and a flat byte buffer of `height * rowSize` bytes. -/
structure Image where
  width : Nat
  height : Nat
  rowSize : Nat
  data : List Nat
deriving DecidableEq

/-- Modelled from the spec: a host image is empty iff a dimension is zero. -/
def Image.empty (img : Image) : Bool :=
  img.width == 0 || img.height == 0

/-- Well-formed host image: stride at least the width and a buffer of
`height * rowSize` bytes. -/
def Image.valid (img : Image) : Prop :=
  img.width ≤ img.rowSize ∧ img.data.length = img.height * img.rowSize

instance (img : Image) : Decidable img.valid := by
  unfold Image.valid
  infer_instance

end Bitmap_Image

/-- The single message used by every validation failure in the source. -/
def badParams : String := "Bad input parameters in image function"

/-- Translation of the one-image `ParameterValidation` overload. -/
def ParameterValidation1 (image1 : ImageCuda) : Except String Unit :=
  if image1.empty then .error badParams else .ok ()

/-- Translation of the two-image `ParameterValidation` overload. -/
def ParameterValidation2 (image1 image2 : ImageCuda) : Except String Unit :=
  if image1.empty || image2.empty ||
     image1.width != image2.width || image1.height != image2.height
  then .error badParams else .ok ()

/-- Translation of the three-image `ParameterValidation` overload. -/
def ParameterValidation3 (image1 image2 image3 : ImageCuda) : Except String Unit :=
  if image1.empty || image2.empty || image3.empty ||
     image1.width != image2.width || image1.height != image2.height ||
     image1.width != image3.width || image1.height != image3.height
  then .error badParams else .ok ()

/-- Modelled from the spec: `Image_Function::ParameterValidation` on a
host image (defined in the CPU part of the library, outside this
translation unit) rejects empty images with the same message. -/
def hostParameterValidation (image1 : Bitmap_Image.Image) : Except String Unit :=
  if image1.empty then .error badParams else .ok ()

/-- Direct translation of `getKernelParameters`: returns
`(threadsPerBlock, blocksPerGrid)`.  `size` is a `uint32_t`, so the sum
`size + threadsPerBlock - 1` is computed modulo `2 ^ 32`. -/
def getKernelParameters (size : Nat) : Nat × Nat :=
  if size < 256 then (size, 1)
  else (256, (size + 256 - 1) % 2 ^ 32 / 256)

/-- Body of the `absoluteDifference` kernel on one pair of bytes. -/
def absoluteDifferencePixel (a b : Nat) : Nat :=
  if a > b then a - b else b - a

/-- Body of the `bitwiseAnd` kernel on one pair of bytes. -/
def bitwiseAndPixel (a b : Nat) : Nat := a &&& b

/-- Body of the `bitwiseOr` kernel on one pair of bytes. -/
def bitwiseOrPixel (a b : Nat) : Nat := a ||| b

/-- Body of the `bitwiseXor` kernel on one pair of bytes. -/
def bitwiseXorPixel (a b : Nat) : Nat := a ^^^ b

/-- Body of the `invert` kernel on one byte: `~a` narrowed back to a
byte equals `255 - a` for byte-valued `a`. -/
def invertPixel (a : Nat) : Nat := 255 - a

/-- Body of the `maximum` kernel on one pair of bytes. -/
def maximumPixel (a b : Nat) : Nat := if a > b then a else b

/-- Body of the `minimum` kernel on one pair of bytes. -/
def minimumPixel (a b : Nat) : Nat := if a < b then a else b

/-- Body of the `subtract` kernel on one pair of bytes. -/
def subtractPixel (a b : Nat) : Nat := if a > b then a - b else 0

/-- One entry of the gammaCorrection lookup table: translation of
`double data = a * pow(i, gamma) + 0.5;
 value[i] = (data < 256) ? (uint8_t)data : 255;`
with the arithmetic over exact rationals.  The value of the external
floating-point `pow` call is supplied as the argument `powV`.  The
truncating cast of the non-negative `data` is the floor. -/
def gammaTableEntry (a powV : ℚ) : Nat :=
  let data := a * powV + 1 / 2
  if data < 256 then data.floor.toNat else 255

/-- The 256-entry lookup table built once per block by the designated
thread (`threadIdx.x == 0`) of the `gammaCorrection` kernel and
broadcast through shared memory.  `pw` models the C library `pow`
applied to base `i` and exponent `gamma`. -/
def gammaTable (a gamma : ℚ) (pw : ℚ → ℚ → ℚ) : List Nat :=
  (List.range 256).map fun i : Nat => gammaTableEntry a (pw i gamma)

/-- Per-pixel action of the `gammaCorrection` kernel: a lookup
`value[in[id]]` in the shared table. -/
def gammaCorrectionPixel (a gamma : ℚ) (pw : ℚ → ℚ → ℚ) (v : Nat) : Nat :=
  (gammaTable a gamma pw).getD v 0

/-- Global-memory buffers an elementwise kernel thread can address. -/
inductive Buf where
  | inBuf1
  | inBuf2
  | outBuf
deriving DecidableEq

/-- Writes performed by the thread with global index `id` of a
two-input elementwise kernel: the body is
`if (id < size) out[id] = op(in1[id], in2[id]);`, so the thread issues
exactly one write, to the output buffer, when `id < size`, and no write
otherwise.  The input buffers are only read. -/
def kernelThreadWrites2 (op : Nat → Nat → Nat) (in1 in2 : List Nat)
    (size id : Nat) : List (Buf × Nat × Nat) :=
  if id < size then [(Buf.outBuf, id, op (in1.getD id 0) (in2.getD id 0))] else []

/-- Writes performed by the thread with global index `id` of a
one-input elementwise kernel (`invert`, `gammaCorrection`): the body is
`if (id < size) out[id] = op(in[id]);`.  The group-local gamma table in
shared memory is kernel scratch, not an image buffer, and is not part of
the write set over image buffers. -/
def kernelThreadWrites1 (op : Nat → Nat) (inp : List Nat)
    (size id : Nat) : List (Buf × Nat × Nat) :=
  if id < size then [(Buf.outBuf, id, op (inp.getD id 0))] else []

/-- Apply one thread's writes to the output buffer; only writes aimed at
the output buffer land in it. -/
def applyThreadWrites (out : List Nat) (ws : List (Buf × Nat × Nat)) : List Nat :=
  ws.foldl (fun o w => if w.1 = Buf.outBuf then o.set w.2.1 w.2.2 else o) out

/-- Execution of a two-input elementwise kernel over a grid of
`threads` total threads (`blocksPerGrid * threadsPerBlock`): each
thread's writes are applied to the output buffer.  All writes target
pairwise distinct indices, so any interleaving gives this result. -/
def runKernel2 (op : Nat → Nat → Nat) (in1 in2 out : List Nat)
    (size threads : Nat) : List Nat :=
  (List.range threads).foldl
    (fun o id => applyThreadWrites o (kernelThreadWrites2 op in1 in2 size id)) out

/-- Execution of a one-input elementwise kernel over a grid of
`threads` total threads. -/
def runKernel1 (op : Nat → Nat) (inp out : List Nat)
    (size threads : Nat) : List Nat :=
  (List.range threads).foldl
    (fun o id => applyThreadWrites o (kernelThreadWrites1 op inp size id)) out

/-- Device-side effects a facade can perform, in program order. -/
inductive Effect where
  | devAlloc (w h : Nat)
  | kernelLaunch (blocksPerGrid threadsPerBlock : Nat)
deriving DecidableEq

/-- Model of one `cudaMemcpy` of `src.length` bytes into `dst` at
offset `off`. -/
def memcpyInto (dst : List Nat) (off : Nat) (src : List Nat) : List Nat :=
  dst.take off ++ src ++ dst.drop (off + src.length)

/-- The row loop shared by both `Convert` overloads: `height` successive
copies of `wBytes` bytes, reading row `r` at offset `r * srcStride` and
writing it at offset `r * dstStride`. -/
def rowByRowCopy (dst src : List Nat) (height dstStride srcStride wBytes : Nat) :
    List Nat :=
  (List.range height).foldl
    (fun d r => memcpyInto d (r * dstStride) ((src.drop (r * srcStride)).take wBytes))
    dst

namespace Image_Function_Cuda

/-- Translation of the in-place `AbsoluteDifference`.  The kernel-launch
error check (`cudaGetLastError`) is external runtime state, modelled as
success. -/
def AbsoluteDifference_inPlace (in1 in2 out : ImageCuda) :
    List Effect × Except String ImageCuda :=
  match ParameterValidation3 in1 in2 out with
  | .error e => ([], .error e)
  | .ok _ =>
    let size := (out.width * out.height) % 2 ^ 32
    let p := getKernelParameters size
    ([Effect.kernelLaunch p.2 p.1],
     .ok { out with data := runKernel2 absoluteDifferencePixel in1.data in2.data out.data size (p.1 * p.2) })

/-- Translation of the allocating `AbsoluteDifference`. -/
def AbsoluteDifference (in1 in2 : ImageCuda) :
    List Effect × Except String ImageCuda :=
  match ParameterValidation2 in1 in2 with
  | .error e => ([], .error e)
  | .ok _ =>
    let out := ImageCuda.construct in1.width in1.height
    let r := AbsoluteDifference_inPlace in1 in2 out
    (Effect.devAlloc in1.width in1.height :: r.1, r.2)

/-- Translation of the in-place `BitwiseAnd`. -/
def BitwiseAnd_inPlace (in1 in2 out : ImageCuda) :
    List Effect × Except String ImageCuda :=
  match ParameterValidation3 in1 in2 out with
  | .error e => ([], .error e)
  | .ok _ =>
    let size := (out.width * out.height) % 2 ^ 32
    let p := getKernelParameters size
    ([Effect.kernelLaunch p.2 p.1],
     .ok { out with data := runKernel2 bitwiseAndPixel in1.data in2.data out.data size (p.1 * p.2) })

/-- Translation of the allocating `BitwiseAnd`. -/
def BitwiseAnd (in1 in2 : ImageCuda) :
    List Effect × Except String ImageCuda :=
  match ParameterValidation2 in1 in2 with
  | .error e => ([], .error e)
  | .ok _ =>
    let out := ImageCuda.construct in1.width in1.height
    let r := BitwiseAnd_inPlace in1 in2 out
    (Effect.devAlloc in1.width in1.height :: r.1, r.2)

/-- Translation of the in-place `BitwiseOr`. -/
def BitwiseOr_inPlace (in1 in2 out : ImageCuda) :
    List Effect × Except String ImageCuda :=
  match ParameterValidation3 in1 in2 out with
  | .error e => ([], .error e)
  | .ok _ =>
    let size := (out.width * out.height) % 2 ^ 32
    let p := getKernelParameters size
    ([Effect.kernelLaunch p.2 p.1],
     .ok { out with data := runKernel2 bitwiseOrPixel in1.data in2.data out.data size (p.1 * p.2) })

/-- Translation of the allocating `BitwiseOr`. -/
def BitwiseOr (in1 in2 : ImageCuda) :
    List Effect × Except String ImageCuda :=
  match ParameterValidation2 in1 in2 with
  | .error e => ([], .error e)
  | .ok _ =>
    let out := ImageCuda.construct in1.width in1.height
    let r := BitwiseOr_inPlace in1 in2 out
    (Effect.devAlloc in1.width in1.height :: r.1, r.2)

/-- Translation of the in-place `BitwiseXor`. -/
def BitwiseXor_inPlace (in1 in2 out : ImageCuda) :
    List Effect × Except String ImageCuda :=
  match ParameterValidation3 in1 in2 out with
  | .error e => ([], .error e)
  | .ok _ =>
    let size := (out.width * out.height) % 2 ^ 32
    let p := getKernelParameters size
    ([Effect.kernelLaunch p.2 p.1],
     .ok { out with data := runKernel2 bitwiseXorPixel in1.data in2.data out.data size (p.1 * p.2) })

/-- Translation of the allocating `BitwiseXor`. -/
def BitwiseXor (in1 in2 : ImageCuda) :
    List Effect × Except String ImageCuda :=
  match ParameterValidation2 in1 in2 with
  | .error e => ([], .error e)
  | .ok _ =>
    let out := ImageCuda.construct in1.width in1.height
    let r := BitwiseXor_inPlace in1 in2 out
    (Effect.devAlloc in1.width in1.height :: r.1, r.2)

/-- Translation of the in-place `Maximum`. -/
def Maximum_inPlace (in1 in2 out : ImageCuda) :
    List Effect × Except String ImageCuda :=
  match ParameterValidation3 in1 in2 out with
  | .error e => ([], .error e)
  | .ok _ =>
    let size := (out.width * out.height) % 2 ^ 32
    let p := getKernelParameters size
    ([Effect.kernelLaunch p.2 p.1],
     .ok { out with data := runKernel2 maximumPixel in1.data in2.data out.data size (p.1 * p.2) })

/-- Translation of the allocating `Maximum`. -/
def Maximum (in1 in2 : ImageCuda) :
    List Effect × Except String ImageCuda :=
  match ParameterValidation2 in1 in2 with
  | .error e => ([], .error e)
  | .ok _ =>
    let out := ImageCuda.construct in1.width in1.height
    let r := Maximum_inPlace in1 in2 out
    (Effect.devAlloc in1.width in1.height :: r.1, r.2)

/-- Translation of the in-place `Minimum`. -/
def Minimum_inPlace (in1 in2 out : ImageCuda) :
    List Effect × Except String ImageCuda :=
  match ParameterValidation3 in1 in2 out with
  | .error e => ([], .error e)
  | .ok _ =>
    let size := (out.width * out.height) % 2 ^ 32
    let p := getKernelParameters size
    ([Effect.kernelLaunch p.2 p.1],
     .ok { out with data := runKernel2 minimumPixel in1.data in2.data out.data size (p.1 * p.2) })

/-- Translation of the allocating `Minimum`. -/
def Minimum (in1 in2 : ImageCuda) :
    List Effect × Except String ImageCuda :=
  match ParameterValidation2 in1 in2 with
  | .error e => ([], .error e)
  | .ok _ =>
    let out := ImageCuda.construct in1.width in1.height
    let r := Minimum_inPlace in1 in2 out
    (Effect.devAlloc in1.width in1.height :: r.1, r.2)

/-- Translation of the in-place `Subtract`. -/
def Subtract_inPlace (in1 in2 out : ImageCuda) :
    List Effect × Except String ImageCuda :=
  match ParameterValidation3 in1 in2 out with
  | .error e => ([], .error e)
  | .ok _ =>
    let size := (out.width * out.height) % 2 ^ 32
    let p := getKernelParameters size
    ([Effect.kernelLaunch p.2 p.1],
     .ok { out with data := runKernel2 subtractPixel in1.data in2.data out.data size (p.1 * p.2) })

/-- Translation of the allocating `Subtract`. -/
def Subtract (in1 in2 : ImageCuda) :
    List Effect × Except String ImageCuda :=
  match ParameterValidation2 in1 in2 with
  | .error e => ([], .error e)
  | .ok _ =>
    let out := ImageCuda.construct in1.width in1.height
    let r := Subtract_inPlace in1 in2 out
    (Effect.devAlloc in1.width in1.height :: r.1, r.2)

/-- Translation of the in-place `GammaCorrection`: validation, then the
host-side `a < 0 || gamma < 0` check, then the launch.  `pw` models the
external floating-point `pow`. -/
def GammaCorrection_inPlace (inp out : ImageCuda) (a gamma : ℚ)
    (pw : ℚ → ℚ → ℚ) : List Effect × Except String ImageCuda :=
  match ParameterValidation2 inp out with
  | .error e => ([], .error e)
  | .ok _ =>
    if a < 0 ∨ gamma < 0 then ([], .error badParams)
    else
      let size := (out.width * out.height) % 2 ^ 32
      let p := getKernelParameters size
      ([Effect.kernelLaunch p.2 p.1],
       .ok { out with data := runKernel1 (gammaCorrectionPixel a gamma pw) inp.data out.data size (p.1 * p.2) })

/-- Translation of the allocating `GammaCorrection`: it validates the
input, constructs the output image (a device allocation), and only then
calls the in-place form, which performs the `a`/`gamma` check. -/
def GammaCorrection (inp : ImageCuda) (a gamma : ℚ)
    (pw : ℚ → ℚ → ℚ) : List Effect × Except String ImageCuda :=
  match ParameterValidation1 inp with
  | .error e => ([], .error e)
  | .ok _ =>
    let out := ImageCuda.construct inp.width inp.height
    let r := GammaCorrection_inPlace inp out a gamma pw
    (Effect.devAlloc inp.width inp.height :: r.1, r.2)

/-- Translation of the host-to-device `Convert`: host validation, device
validation, dimension check, then one `cudaMemcpy` per row of
`out.width()` bytes, read at stride `in.rowSize()` and written at stride
`out.width()`.  Row copies are modelled as succeeding. -/
def Convert_toCuda (inp : Bitmap_Image.Image) (out : ImageCuda) :
    Except String ImageCuda :=
  match hostParameterValidation inp with
  | .error e => .error e
  | .ok _ =>
  match ParameterValidation1 out with
  | .error e => .error e
  | .ok _ =>
    if inp.width != out.width || inp.height != out.height then .error badParams
    else .ok { out with
      data := rowByRowCopy out.data inp.data inp.height out.width inp.rowSize out.width }

/-- Translation of the device-to-host `Convert`: device validation, host
validation, dimension check, then one `cudaMemcpy` per row of
`in.width()` bytes, read at stride `in.width()` and written at stride
`out.rowSize()`. -/
def Convert_fromCuda (inp : ImageCuda) (out : Bitmap_Image.Image) :
    Except String Bitmap_Image.Image :=
  match ParameterValidation1 inp with
  | .error e => .error e
  | .ok _ =>
  match hostParameterValidation out with
  | .error e => .error e
  | .ok _ =>
    if inp.width != out.width || inp.height != out.height then .error badParams
    else .ok { out with
      data := rowByRowCopy out.data inp.data out.height out.rowSize inp.width inp.width }

end Image_Function_Cuda

/-! ### Basic facts about the launch configuration -/

lemma getKernelParameters_covers {n : Nat} (h : n ≤ 2 ^ 32 - 256) :
    n ≤ (getKernelParameters n).1 * (getKernelParameters n).2 := by
  unfold getKernelParameters
  split
  · simp
  · have hlt : n + 256 - 1 < 2 ^ 32 := by omega
    rw [Nat.mod_eq_of_lt hlt]
    have hdm := Nat.div_add_mod (n + 256 - 1) 256
    have hm : (n + 256 - 1) % 256 < 256 := Nat.mod_lt _ (by omega)
    simp only
    omega

lemma getKernelParameters_tpb_le {n : Nat} :
    (getKernelParameters n).1 ≤ 256 := by
  unfold getKernelParameters
  split
  · rename_i h
    show n ≤ 256
    omega
  · show 256 ≤ 256
    exact Nat.le_refl 256

/-! ### Pointwise characterisation of a kernel run -/

lemma runKernel2_succ (op : Nat → Nat → Nat) (in1 in2 out : List Nat) (size t : Nat) :
    runKernel2 op in1 in2 out size (t + 1) =
      if t < size then
        (runKernel2 op in1 in2 out size t).set t (op (in1.getD t 0) (in2.getD t 0))
      else runKernel2 op in1 in2 out size t := by
  unfold runKernel2
  rw [List.range_succ, List.foldl_append]
  simp only [List.foldl_cons, List.foldl_nil, kernelThreadWrites2]
  split
  · simp [applyThreadWrites]
  · simp [applyThreadWrites]

lemma runKernel2_length (op : Nat → Nat → Nat) (in1 in2 out : List Nat)
    (size threads : Nat) :
    (runKernel2 op in1 in2 out size threads).length = out.length := by
  induction threads with
  | zero => rfl
  | succ t ih =>
    rw [runKernel2_succ]
    split
    · rw [List.length_set, ih]
    · exact ih

lemma runKernel2_getD (op : Nat → Nat → Nat) (in1 in2 out : List Nat)
    (size threads i : Nat) :
    (runKernel2 op in1 in2 out size threads).getD i 0 =
      if i < size ∧ i < threads ∧ i < out.length then
        op (in1.getD i 0) (in2.getD i 0)
      else out.getD i 0 := by
  induction threads with
  | zero => simp [runKernel2]
  | succ t ih =>
    rw [runKernel2_succ]
    by_cases hts : t < size
    · rw [if_pos hts]
      rw [List.getD_eq_getElem?_getD, List.getElem?_set, runKernel2_length]
      by_cases hti : t = i
      · subst hti
        by_cases htl : t < out.length
        · have hcond : t < size ∧ t < t + 1 ∧ t < out.length :=
            ⟨hts, Nat.lt_succ_self t, htl⟩
          rw [if_pos hcond]
          simp [htl]
        · have hcond : ¬(t < size ∧ t < t + 1 ∧ t < out.length) := by
            intro hc
            exact htl hc.2.2
          rw [if_neg hcond]
          simp [htl, List.getElem?_eq_none (Nat.le_of_not_lt htl)]
      · rw [if_neg hti, ← List.getD_eq_getElem?_getD, ih]
        have hiff : (i < size ∧ i < t ∧ i < out.length) ↔
            (i < size ∧ i < t + 1 ∧ i < out.length) := by omega
        rw [if_congr hiff rfl rfl]
    · rw [if_neg hts, ih]
      have hiff : (i < size ∧ i < t ∧ i < out.length) ↔
          (i < size ∧ i < t + 1 ∧ i < out.length) := by
        constructor
        · rintro ⟨h1, h2, h3⟩
          exact ⟨h1, by omega, h3⟩
        · rintro ⟨h1, h2, h3⟩
          refine ⟨h1, ?_, h3⟩
          omega
      rw [if_congr hiff rfl rfl]

lemma runKernel1_succ (op : Nat → Nat) (inp out : List Nat) (size t : Nat) :
    runKernel1 op inp out size (t + 1) =
      if t < size then
        (runKernel1 op inp out size t).set t (op (inp.getD t 0))
      else runKernel1 op inp out size t := by
  unfold runKernel1
  rw [List.range_succ, List.foldl_append]
  simp only [List.foldl_cons, List.foldl_nil, kernelThreadWrites1]
  split
  · simp [applyThreadWrites]
  · simp [applyThreadWrites]

lemma runKernel1_length (op : Nat → Nat) (inp out : List Nat)
    (size threads : Nat) :
    (runKernel1 op inp out size threads).length = out.length := by
  induction threads with
  | zero => rfl
  | succ t ih =>
    rw [runKernel1_succ]
    split
    · rw [List.length_set, ih]
    · exact ih

lemma runKernel1_getD (op : Nat → Nat) (inp out : List Nat)
    (size threads i : Nat) :
    (runKernel1 op inp out size threads).getD i 0 =
      if i < size ∧ i < threads ∧ i < out.length then
        op (inp.getD i 0)
      else out.getD i 0 := by
  induction threads with
  | zero => simp [runKernel1]
  | succ t ih =>
    rw [runKernel1_succ]
    by_cases hts : t < size
    · rw [if_pos hts]
      rw [List.getD_eq_getElem?_getD, List.getElem?_set, runKernel1_length]
      by_cases hti : t = i
      · subst hti
        by_cases htl : t < out.length
        · have hcond : t < size ∧ t < t + 1 ∧ t < out.length :=
            ⟨hts, Nat.lt_succ_self t, htl⟩
          rw [if_pos hcond]
          simp [htl]
        · have hcond : ¬(t < size ∧ t < t + 1 ∧ t < out.length) := by
            intro hc
            exact htl hc.2.2
          rw [if_neg hcond]
          simp [htl, List.getElem?_eq_none (Nat.le_of_not_lt htl)]
      · rw [if_neg hti, ← List.getD_eq_getElem?_getD, ih]
        have hiff : (i < size ∧ i < t ∧ i < out.length) ↔
            (i < size ∧ i < t + 1 ∧ i < out.length) := by omega
        rw [if_congr hiff rfl rfl]
    · rw [if_neg hts, ih]
      have hiff : (i < size ∧ i < t ∧ i < out.length) ↔
          (i < size ∧ i < t + 1 ∧ i < out.length) := by
        constructor
        · rintro ⟨h1, h2, h3⟩
          exact ⟨h1, by omega, h3⟩
        · rintro ⟨h1, h2, h3⟩
          refine ⟨h1, ?_, h3⟩
          omega
      rw [if_congr hiff rfl rfl]

/-! ### Validation reductions -/

lemma ParameterValidation1_ok {a : ImageCuda} (hw : 0 < a.width) (hh : 0 < a.height) :
    ParameterValidation1 a = .ok () := by
  unfold ParameterValidation1 ImageCuda.empty
  rw [if_neg]
  simp only [Bool.or_eq_true, beq_iff_eq]
  omega

lemma ParameterValidation2_ok {a b : ImageCuda} (hw0 : 0 < a.width) (hh0 : 0 < a.height)
    (hw : a.width = b.width) (hh : a.height = b.height) :
    ParameterValidation2 a b = .ok () := by
  unfold ParameterValidation2 ImageCuda.empty
  rw [if_neg]
  simp only [Bool.or_eq_true, beq_iff_eq, bne_iff_ne, ne_eq]
  push_neg
  omega

lemma ParameterValidation3_ok {a b c : ImageCuda} (hw0 : 0 < a.width) (hh0 : 0 < a.height)
    (hw : a.width = b.width) (hh : a.height = b.height)
    (hw3 : a.width = c.width) (hh3 : a.height = c.height) :
    ParameterValidation3 a b c = .ok () := by
  unfold ParameterValidation3 ImageCuda.empty
  rw [if_neg]
  simp only [Bool.or_eq_true, beq_iff_eq, bne_iff_ne, ne_eq]
  push_neg
  omega

lemma ParameterValidation2_mismatch {a b : ImageCuda}
    (h : a.width ≠ b.width ∨ a.height ≠ b.height) :
    ParameterValidation2 a b = .error badParams := by
  unfold ParameterValidation2
  rw [if_pos]
  simp only [Bool.or_eq_true, bne_iff_ne, ne_eq]
  tauto

lemma ParameterValidation3_mismatch {a b c : ImageCuda}
    (h : a.width ≠ b.width ∨ a.height ≠ b.height) :
    ParameterValidation3 a b c = .error badParams := by
  unfold ParameterValidation3
  rw [if_pos]
  simp only [Bool.or_eq_true, bne_iff_ne, ne_eq]
  tauto

/-! ### Byte bounds from validity -/

lemma valid_byte_lt {img : ImageCuda} (h : img.valid) {i : Nat}
    (hi : i < img.data.length) : img.data.getD i 0 < 256 := by
  rcases h with ⟨-, -, -, hb⟩
  rw [List.getD_eq_getElem?_getD, List.getElem?_eq_getElem hi]
  exact hb _ (List.getElem_mem hi)

/-! ### Facts about the row-by-row transfer -/

lemma memcpyInto_length {dst src : List Nat} {off : Nat}
    (h : off + src.length ≤ dst.length) :
    (memcpyInto dst off src).length = dst.length := by
  unfold memcpyInto
  simp only [List.length_append, List.length_take, List.length_drop]
  omega

lemma memcpyInto_getD {dst src : List Nat} {off : Nat}
    (hoff : off + src.length ≤ dst.length) (i : Nat) :
    (memcpyInto dst off src).getD i 0 =
      if off ≤ i ∧ i < off + src.length then src.getD (i - off) 0
      else dst.getD i 0 := by
  have htk : (dst.take off).length = off := by
    rw [List.length_take]
    omega
  have happ : (dst.take off ++ src).length = off + src.length := by
    rw [List.length_append, htk]
  unfold memcpyInto
  by_cases h1 : i < off
  · rw [if_neg (by omega)]
    rw [List.getD_eq_getElem?_getD, List.getD_eq_getElem?_getD]
    rw [List.getElem?_append_left (by rw [happ]; omega)]
    rw [List.getElem?_append_left (by rw [htk]; exact h1), List.getElem?_take_of_lt h1]
  · by_cases h2 : i < off + src.length
    · rw [if_pos ⟨Nat.le_of_not_lt h1, h2⟩]
      rw [List.getD_eq_getElem?_getD, List.getD_eq_getElem?_getD]
      rw [List.getElem?_append_left (by rw [happ]; omega)]
      rw [List.getElem?_append_right (by rw [htk]; omega), htk]
    · rw [if_neg (by omega)]
      rw [List.getD_eq_getElem?_getD, List.getD_eq_getElem?_getD]
      rw [List.getElem?_append_right (by rw [happ]; omega), happ]
      rw [List.getElem?_drop]
      have hidx : off + src.length + (i - (off + src.length)) = i := by omega
      rw [hidx]

lemma take_drop_getD {src : List Nat} {m wB c : Nat} (hc : c < wB) :
    ((src.drop m).take wB).getD c 0 = src.getD (m + c) 0 := by
  rw [List.getD_eq_getElem?_getD, List.getD_eq_getElem?_getD,
      List.getElem?_take_of_lt hc, List.getElem?_drop]

lemma rowByRowCopy_succ (dst src : List Nat) (t ds ss wB : Nat) :
    rowByRowCopy dst src (t + 1) ds ss wB =
      memcpyInto (rowByRowCopy dst src t ds ss wB) (t * ds)
        ((src.drop (t * ss)).take wB) := by
  unfold rowByRowCopy
  rw [List.range_succ, List.foldl_append]
  simp

lemma rowByRowCopy_length (dst src : List Nat) (h ds ss wB : Nat)
    (hwd : wB ≤ ds) (hdst : h * ds ≤ dst.length) :
    (rowByRowCopy dst src h ds ss wB).length = dst.length := by
  induction h with
  | zero => rfl
  | succ t ih =>
    have hexp : (t + 1) * ds = t * ds + ds := by ring
    have hdt : t * ds ≤ dst.length := by omega
    have hih := ih hdt
    rw [rowByRowCopy_succ, memcpyInto_length, hih]
    have hsl : ((src.drop (t * ss)).take wB).length ≤ wB := by
      rw [List.length_take]
      omega
    rw [hih]
    omega

lemma rowByRowCopy_getD (dst src : List Nat) (h ds ss wB : Nat)
    (hwd : wB ≤ ds) (hws : wB ≤ ss)
    (hdst : h * ds ≤ dst.length) (hsrc : h * ss ≤ src.length) :
    ∀ r, r < h → ∀ c, c < wB →
      (rowByRowCopy dst src h ds ss wB).getD (r * ds + c) 0 =
        src.getD (r * ss + c) 0 := by
  induction h with
  | zero =>
    intro r hr
    omega
  | succ t ih =>
    intro r hr c hc
    have hexpd : (t + 1) * ds = t * ds + ds := by ring
    have hexps : (t + 1) * ss = t * ss + ss := by ring
    have hdt : t * ds ≤ dst.length := by omega
    have hst : t * ss ≤ src.length := by omega
    have hplen : (rowByRowCopy dst src t ds ss wB).length = dst.length :=
      rowByRowCopy_length dst src t ds ss wB hwd hdt
    have hslice : ((src.drop (t * ss)).take wB).length = wB := by
      rw [List.length_take, List.length_drop]
      omega
    rw [rowByRowCopy_succ, memcpyInto_getD (by rw [hslice, hplen]; omega)]
    rw [hslice]
    rcases Nat.lt_succ_iff_lt_or_eq.mp hr with hrt | hrt
    · have h1 : (r + 1) * ds ≤ t * ds := Nat.mul_le_mul_right ds (by omega)
      have h2 : (r + 1) * ds = r * ds + ds := by ring
      rw [if_neg (by omega)]
      exact ih hdt hst r hrt c hc
    · subst hrt
      rw [if_pos ⟨Nat.le_add_right _ _, by omega⟩]
      rw [Nat.add_sub_cancel_left, take_drop_getD hc]

lemma hostParameterValidation_ok {a : Bitmap_Image.Image}
    (hw : 0 < a.width) (hh : 0 < a.height) :
    hostParameterValidation a = .ok () := by
  unfold hostParameterValidation Bitmap_Image.Image.empty
  rw [if_neg]
  simp only [Bool.or_eq_true, beq_iff_eq]
  omega

/-! ### Further helpers -/

lemma ParameterValidation1_cases (a : ImageCuda) :
    ParameterValidation1 a = .ok () ∨ ParameterValidation1 a = .error badParams := by
  unfold ParameterValidation1
  split
  · right
    rfl
  · left
    rfl

lemma ParameterValidation2_cases (a b : ImageCuda) :
    ParameterValidation2 a b = .ok () ∨ ParameterValidation2 a b = .error badParams := by
  unfold ParameterValidation2
  split
  · right
    rfl
  · left
    rfl

lemma ParameterValidation3_cases (a b c : ImageCuda) :
    ParameterValidation3 a b c = .ok () ∨ ParameterValidation3 a b c = .error badParams := by
  unfold ParameterValidation3
  split
  · right
    rfl
  · left
    rfl

lemma getD_eq_getElem_of_lt {l : List Nat} {i : Nat} (h : i < l.length) :
    l.getD i 0 = l[i] := by
  rw [List.getD_eq_getElem?_getD, List.getElem?_eq_getElem h]
  rfl

lemma replicate_zero_getD (n i : Nat) : (List.replicate n 0).getD i 0 = 0 := by
  rw [List.getD_eq_getElem?_getD, List.getElem?_replicate]
  split
  · rfl
  · rfl

lemma absoluteDifferencePixel_comm (a b : Nat) :
    absoluteDifferencePixel a b = absoluteDifferencePixel b a := by
  unfold absoluteDifferencePixel
  split
  · split
    · omega
    · omega
  · split
    · omega
    · omega

lemma maximumPixel_comm (a b : Nat) : maximumPixel a b = maximumPixel b a := by
  unfold maximumPixel
  split
  · split
    · omega
    · omega
  · split
    · omega
    · omega

lemma minimumPixel_comm (a b : Nat) : minimumPixel a b = minimumPixel b a := by
  unfold minimumPixel
  split
  · split
    · omega
    · omega
  · split
    · omega
    · omega

lemma maximumPixel_self (a : Nat) : maximumPixel a a = a := by
  unfold maximumPixel
  split
  · rfl
  · rfl

lemma minimumPixel_self (a : Nat) : minimumPixel a a = a := by
  unfold minimumPixel
  split
  · rfl
  · rfl

lemma minimumPixel_le_maximumPixel (a b : Nat) :
    minimumPixel a b ≤ maximumPixel a b := by
  unfold minimumPixel maximumPixel
  split
  · split
    · omega
    · omega
  · split
    · omega
    · omega

lemma subtractPixel_le_left (a b : Nat) : subtractPixel a b ≤ a := by
  unfold subtractPixel
  split
  · omega
  · omega

lemma subtractPixel_eq (a b : Nat) :
    subtractPixel a b = if a ≤ b then 0 else a - b := by
  unfold subtractPixel
  split
  · rw [if_neg (by omega)]
  · rw [if_pos (by omega)]

/-! ### Gamma-table arithmetic -/

lemma rat_floor_eq_int_floor (q : ℚ) : q.floor = ⌊q⌋ :=
  (Rat.floor_def' q).trans Rat.floor_def.symm

lemma gammaTableEntry_le_255 (a x : ℚ) : gammaTableEntry a x ≤ 255 := by
  show (if a * x + 1 / 2 < 256 then (a * x + 1 / 2).floor.toNat else 255) ≤ 255
  split
  · rename_i hlt
    rw [rat_floor_eq_int_floor]
    have h2 : ⌊a * x + 1 / 2⌋ < 256 := by
      rw [Int.floor_lt]
      exact_mod_cast hlt
    omega
  · exact Nat.le_refl 255

lemma gammaTableEntry_spec (a x : ℚ) :
    gammaTableEntry a x = (min (round (a * x)) 255).toNat := by
  have hround : round (a * x) = ⌊a * x + 1 / 2⌋ := round_eq _
  show (if a * x + 1 / 2 < 256 then (a * x + 1 / 2).floor.toNat else 255) = _
  rw [rat_floor_eq_int_floor]
  split
  · rename_i hlt
    have hle : ⌊a * x + 1 / 2⌋ ≤ 255 := by
      have h2 : ⌊a * x + 1 / 2⌋ < 256 := by
        rw [Int.floor_lt]
        exact_mod_cast hlt
      omega
    rw [hround, min_eq_left hle]
  · rename_i hge
    push_neg at hge
    have h256 : (256 : ℤ) ≤ ⌊a * x + 1 / 2⌋ := by
      rw [Int.le_floor]
      exact_mod_cast hge
    rw [hround, min_eq_right (by omega)]
    rfl

lemma gammaTableEntry_id {p : Nat} (hp : p < 256) :
    gammaTableEntry 1 (p : ℚ) = p := by
  have hp255 : (p : ℚ) ≤ 255 := by
    exact_mod_cast Nat.le_of_lt_succ hp
  have hlt : (1 : ℚ) * p + 1 / 2 < 256 := by linarith
  show (if (1 : ℚ) * (p : ℚ) + 1 / 2 < 256 then ((1 : ℚ) * (p : ℚ) + 1 / 2).floor.toNat else 255) = p
  rw [if_pos hlt, rat_floor_eq_int_floor]
  have hfl : ⌊(1 : ℚ) * (p : ℚ) + 1 / 2⌋ = (p : ℤ) := by
    rw [Int.floor_eq_iff]
    constructor
    · push_cast
      linarith
    · push_cast
      linarith
  rw [hfl]
  exact Int.toNat_natCast p

lemma gammaTable_getD {a gamma : ℚ} {pw : ℚ → ℚ → ℚ} {v : Nat} (hv : v < 256) :
    (gammaTable a gamma pw).getD v 0 = gammaTableEntry a (pw v gamma) := by
  unfold gammaTable
  rw [List.getD_eq_getElem?_getD, List.getElem?_map, List.getElem?_range hv]
  rfl

/-! ### Facade evaluation on the success path -/

lemma Subtract_inPlace_eval {in1 in2 out : ImageCuda}
    (h3 : ParameterValidation3 in1 in2 out = .ok ()) :
    Image_Function_Cuda.Subtract_inPlace in1 in2 out =
      ([Effect.kernelLaunch
          (getKernelParameters ((out.width * out.height) % 2 ^ 32)).2
          (getKernelParameters ((out.width * out.height) % 2 ^ 32)).1],
       .ok (ImageCuda.mk out.width out.height
         (runKernel2 subtractPixel in1.data in2.data out.data
           ((out.width * out.height) % 2 ^ 32)
           ((getKernelParameters ((out.width * out.height) % 2 ^ 32)).1 *
            (getKernelParameters ((out.width * out.height) % 2 ^ 32)).2)))) := by
  unfold Image_Function_Cuda.Subtract_inPlace
  rw [h3]

lemma AbsoluteDifference_inPlace_eval {in1 in2 out : ImageCuda}
    (h3 : ParameterValidation3 in1 in2 out = .ok ()) :
    Image_Function_Cuda.AbsoluteDifference_inPlace in1 in2 out =
      ([Effect.kernelLaunch
          (getKernelParameters ((out.width * out.height) % 2 ^ 32)).2
          (getKernelParameters ((out.width * out.height) % 2 ^ 32)).1],
       .ok (ImageCuda.mk out.width out.height
         (runKernel2 absoluteDifferencePixel in1.data in2.data out.data
           ((out.width * out.height) % 2 ^ 32)
           ((getKernelParameters ((out.width * out.height) % 2 ^ 32)).1 *
            (getKernelParameters ((out.width * out.height) % 2 ^ 32)).2)))) := by
  unfold Image_Function_Cuda.AbsoluteDifference_inPlace
  rw [h3]

lemma Maximum_inPlace_eval {in1 in2 out : ImageCuda}
    (h3 : ParameterValidation3 in1 in2 out = .ok ()) :
    Image_Function_Cuda.Maximum_inPlace in1 in2 out =
      ([Effect.kernelLaunch
          (getKernelParameters ((out.width * out.height) % 2 ^ 32)).2
          (getKernelParameters ((out.width * out.height) % 2 ^ 32)).1],
       .ok (ImageCuda.mk out.width out.height
         (runKernel2 maximumPixel in1.data in2.data out.data
           ((out.width * out.height) % 2 ^ 32)
           ((getKernelParameters ((out.width * out.height) % 2 ^ 32)).1 *
            (getKernelParameters ((out.width * out.height) % 2 ^ 32)).2)))) := by
  unfold Image_Function_Cuda.Maximum_inPlace
  rw [h3]

lemma Minimum_inPlace_eval {in1 in2 out : ImageCuda}
    (h3 : ParameterValidation3 in1 in2 out = .ok ()) :
    Image_Function_Cuda.Minimum_inPlace in1 in2 out =
      ([Effect.kernelLaunch
          (getKernelParameters ((out.width * out.height) % 2 ^ 32)).2
          (getKernelParameters ((out.width * out.height) % 2 ^ 32)).1],
       .ok (ImageCuda.mk out.width out.height
         (runKernel2 minimumPixel in1.data in2.data out.data
           ((out.width * out.height) % 2 ^ 32)
           ((getKernelParameters ((out.width * out.height) % 2 ^ 32)).1 *
            (getKernelParameters ((out.width * out.height) % 2 ^ 32)).2)))) := by
  unfold Image_Function_Cuda.Minimum_inPlace
  rw [h3]

lemma Subtract_alloc_eval {in1 in2 : ImageCuda}
    (h2 : ParameterValidation2 in1 in2 = .ok ()) :
    Image_Function_Cuda.Subtract in1 in2 =
      (Effect.devAlloc in1.width in1.height ::
        (Image_Function_Cuda.Subtract_inPlace in1 in2
          (ImageCuda.construct in1.width in1.height)).1,
       (Image_Function_Cuda.Subtract_inPlace in1 in2
          (ImageCuda.construct in1.width in1.height)).2) := by
  unfold Image_Function_Cuda.Subtract
  rw [h2]

lemma AbsoluteDifference_alloc_eval {in1 in2 : ImageCuda}
    (h2 : ParameterValidation2 in1 in2 = .ok ()) :
    Image_Function_Cuda.AbsoluteDifference in1 in2 =
      (Effect.devAlloc in1.width in1.height ::
        (Image_Function_Cuda.AbsoluteDifference_inPlace in1 in2
          (ImageCuda.construct in1.width in1.height)).1,
       (Image_Function_Cuda.AbsoluteDifference_inPlace in1 in2
          (ImageCuda.construct in1.width in1.height)).2) := by
  unfold Image_Function_Cuda.AbsoluteDifference
  rw [h2]

lemma Maximum_alloc_eval {in1 in2 : ImageCuda}
    (h2 : ParameterValidation2 in1 in2 = .ok ()) :
    Image_Function_Cuda.Maximum in1 in2 =
      (Effect.devAlloc in1.width in1.height ::
        (Image_Function_Cuda.Maximum_inPlace in1 in2
          (ImageCuda.construct in1.width in1.height)).1,
       (Image_Function_Cuda.Maximum_inPlace in1 in2
          (ImageCuda.construct in1.width in1.height)).2) := by
  unfold Image_Function_Cuda.Maximum
  rw [h2]

lemma Minimum_alloc_eval {in1 in2 : ImageCuda}
    (h2 : ParameterValidation2 in1 in2 = .ok ()) :
    Image_Function_Cuda.Minimum in1 in2 =
      (Effect.devAlloc in1.width in1.height ::
        (Image_Function_Cuda.Minimum_inPlace in1 in2
          (ImageCuda.construct in1.width in1.height)).1,
       (Image_Function_Cuda.Minimum_inPlace in1 in2
          (ImageCuda.construct in1.width in1.height)).2) := by
  unfold Image_Function_Cuda.Minimum
  rw [h2]

/-! ### Claims -/

/-- C2 (amended): for every element count `n ≤ 2^32 - 256` the launch
configuration policy returns `(threadsPerBlock = n, blocksPerGrid = 1)`
when `n < 256` and `(256, ceil(n/256))` (that is, `(n + 255) / 256`)
otherwise, so `threadsPerBlock * blocksPerGrid ≥ n` and
`threadsPerBlock ≤ 256`.  For the remaining 255 values of the
`uint32_t` range the sum `size + 255` wraps and the guarantee fails. -/
theorem c2_launch_configuration (n : Nat) (hn : n ≤ 2 ^ 32 - 256) :
    (n < 256 → getKernelParameters n = (n, 1)) ∧
    (256 ≤ n → getKernelParameters n = (256, (n + 255) / 256)) ∧
    n ≤ (getKernelParameters n).1 * (getKernelParameters n).2 ∧
    (getKernelParameters n).1 ≤ 256 := by
  refine ⟨?_, ?_, getKernelParameters_covers hn, getKernelParameters_tpb_le⟩
  · intro h
    unfold getKernelParameters
    rw [if_pos h]
  · intro h
    unfold getKernelParameters
    rw [if_neg (by omega)]
    have h1 : n + 256 - 1 = n + 255 := by omega
    rw [h1, Nat.mod_eq_of_lt (by omega)]

theorem c2_launch_configuration_witness :
    100000 ≤ 2 ^ 32 - 256 ∧
    (256 ≤ 100000 → getKernelParameters 100000 = (256, (100000 + 255) / 256)) ∧
    100000 ≤ (getKernelParameters 100000).1 * (getKernelParameters 100000).2 ∧
    (getKernelParameters 100000).1 ≤ 256 :=
  ⟨by decide,
   (c2_launch_configuration 100000 (by decide)).2.1,
   (c2_launch_configuration 100000 (by decide)).2.2.1,
   (c2_launch_configuration 100000 (by decide)).2.2.2⟩

/-- C2 counterexample: at the element count `n = 2^32 - 255` the 32-bit
unsigned sum `size + threadsPerBlock - 1` wraps to 0, so the policy
returns 0 blocks: the grid does not cover `n` and `blocksPerGrid` is not
`ceil(n/256) = 16777216`. -/
theorem c2_counterexample :
    getKernelParameters 4294967041 = (256, 0) ∧
    (getKernelParameters 4294967041).1 * (getKernelParameters 4294967041).2
      < 4294967041 ∧
    (4294967041 + 255) / 256 = 16777216 := by
  decide

/-- C4: the gammaCorrection table entry for input value `p` equals
`clamp(round(a * p^gamma), 0, 255)` — stated with the value `x` of the
external floating-point `pow(p, gamma)` abstracted, over exact
arithmetic — and with `a = 1`, `gamma = 1` (where IEEE `pow(x, 1) = x`
exactly) the per-pixel action of the kernel is the identity on all
pixel values `0..255`. -/
theorem c4_gamma_correction_formula :
    (∀ a x : ℚ, 0 ≤ a → 0 ≤ x →
      gammaTableEntry a x = (min (round (a * x)) 255).toNat) ∧
    (∀ pw : ℚ → ℚ → ℚ, (∀ y : ℚ, pw y 1 = y) →
      ∀ v : Nat, v < 256 → gammaCorrectionPixel 1 1 pw v = v) := by
  constructor
  · intro a x _ _
    exact gammaTableEntry_spec a x
  · intro pw hpw v hv
    unfold gammaCorrectionPixel
    rw [gammaTable_getD hv, hpw, gammaTableEntry_id hv]

theorem c4_witness :
    (0 ≤ (2 : ℚ) ∧ 0 ≤ (3 : ℚ) ∧
      gammaTableEntry 2 3 = (min (round ((2 : ℚ) * 3)) 255).toNat) ∧
    (gammaCorrectionPixel 1 1 (fun x _ : ℚ => x) 200 = 200) :=
  ⟨⟨by norm_num, by norm_num,
    c4_gamma_correction_formula.1 2 3 (by norm_num) (by norm_num)⟩,
   c4_gamma_correction_formula.2 (fun x _ : ℚ => x) (fun _ => rfl) 200 (by norm_num)⟩

/-- C5: on images that differ in width or height, every binary
operation — allocating and in-place forms alike — fails with the
validation error, records no device allocation, and launches no
kernel (the effect trace is empty). -/
theorem c5_dimension_mismatch (in1 in2 out : ImageCuda)
    (h : in1.width ≠ in2.width ∨ in1.height ≠ in2.height) :
    Image_Function_Cuda.AbsoluteDifference in1 in2 = ([], .error badParams) ∧
    Image_Function_Cuda.AbsoluteDifference_inPlace in1 in2 out = ([], .error badParams) ∧
    Image_Function_Cuda.BitwiseAnd in1 in2 = ([], .error badParams) ∧
    Image_Function_Cuda.BitwiseAnd_inPlace in1 in2 out = ([], .error badParams) ∧
    Image_Function_Cuda.BitwiseOr in1 in2 = ([], .error badParams) ∧
    Image_Function_Cuda.BitwiseOr_inPlace in1 in2 out = ([], .error badParams) ∧
    Image_Function_Cuda.BitwiseXor in1 in2 = ([], .error badParams) ∧
    Image_Function_Cuda.BitwiseXor_inPlace in1 in2 out = ([], .error badParams) ∧
    Image_Function_Cuda.Maximum in1 in2 = ([], .error badParams) ∧
    Image_Function_Cuda.Maximum_inPlace in1 in2 out = ([], .error badParams) ∧
    Image_Function_Cuda.Minimum in1 in2 = ([], .error badParams) ∧
    Image_Function_Cuda.Minimum_inPlace in1 in2 out = ([], .error badParams) ∧
    Image_Function_Cuda.Subtract in1 in2 = ([], .error badParams) ∧
    Image_Function_Cuda.Subtract_inPlace in1 in2 out = ([], .error badParams) := by
  have h2 := ParameterValidation2_mismatch h
  have h3 := ParameterValidation3_mismatch (c := out) h
  refine ⟨?_, ?_, ?_, ?_, ?_, ?_, ?_, ?_, ?_, ?_, ?_, ?_, ?_, ?_⟩ <;>
    simp only [Image_Function_Cuda.AbsoluteDifference,
      Image_Function_Cuda.AbsoluteDifference_inPlace,
      Image_Function_Cuda.BitwiseAnd, Image_Function_Cuda.BitwiseAnd_inPlace,
      Image_Function_Cuda.BitwiseOr, Image_Function_Cuda.BitwiseOr_inPlace,
      Image_Function_Cuda.BitwiseXor, Image_Function_Cuda.BitwiseXor_inPlace,
      Image_Function_Cuda.Maximum, Image_Function_Cuda.Maximum_inPlace,
      Image_Function_Cuda.Minimum, Image_Function_Cuda.Minimum_inPlace,
      Image_Function_Cuda.Subtract, Image_Function_Cuda.Subtract_inPlace,
      h2, h3]

theorem c5_dimension_mismatch_witness :
    ((1 : Nat) ≠ 2 ∨ (1 : Nat) ≠ 1) ∧
    Image_Function_Cuda.AbsoluteDifference ⟨1, 1, [7]⟩ ⟨2, 1, [0, 0]⟩ =
      ([], .error badParams) :=
  ⟨Or.inl (by decide),
   (c5_dimension_mismatch ⟨1, 1, [7]⟩ ⟨2, 1, [0, 0]⟩ ⟨1, 1, [7]⟩
      (Or.inl (by decide))).1⟩

/-- C8: a kernel thread whose global index is at least the element
count performs no write at all, and every write any elementwise kernel
thread performs targets the output buffer at the thread's own index
(which is below the element count); the input buffers are never
written.  Stated for the shared thread model instantiated by all nine
kernels (two-input and one-input alike). -/
theorem c8_no_input_mutation (op2 : Nat → Nat → Nat) (op1 : Nat → Nat)
    (in1 in2 inp : List Nat) (size id : Nat) :
    (size ≤ id →
      kernelThreadWrites2 op2 in1 in2 size id = [] ∧
      kernelThreadWrites1 op1 inp size id = []) ∧
    (∀ w ∈ kernelThreadWrites2 op2 in1 in2 size id,
      w.1 = Buf.outBuf ∧ w.2.1 = id ∧ w.2.1 < size) ∧
    (∀ w ∈ kernelThreadWrites1 op1 inp size id,
      w.1 = Buf.outBuf ∧ w.2.1 = id ∧ w.2.1 < size) := by
  unfold kernelThreadWrites2 kernelThreadWrites1
  by_cases hid : id < size
  · refine ⟨fun hge => absurd hid (by omega), ?_, ?_⟩
    · intro w hw
      rw [if_pos hid, List.mem_singleton] at hw
      subst hw
      exact ⟨rfl, rfl, hid⟩
    · intro w hw
      rw [if_pos hid, List.mem_singleton] at hw
      subst hw
      exact ⟨rfl, rfl, hid⟩
  · refine ⟨fun hge => ⟨if_neg hid, if_neg hid⟩, ?_, ?_⟩
    · intro w hw
      rw [if_neg hid] at hw
      exact absurd hw (List.not_mem_nil w)
    · intro w hw
      rw [if_neg hid] at hw
      exact absurd hw (List.not_mem_nil w)

theorem c8_no_input_mutation_witness :
    (1 : Nat) ≤ 5 ∧
    kernelThreadWrites2 subtractPixel [9] [3] 1 5 = [] ∧
    kernelThreadWrites1 invertPixel [9] 1 5 = [] :=
  ⟨by decide,
   (c8_no_input_mutation subtractPixel invertPixel [9] [3] [9] 1 5).1 (by decide)⟩

/-- C9: every validation failure — empty image, dimension mismatch, or
negative `a`/`gamma` in GammaCorrection — is reported through the same
exception type carrying the identical message
"Bad input parameters in image function", so the failure kinds are not
distinguishable by the caller from the reported error alone. -/
theorem c9_uniform_error_message :
    (∀ i1 : ImageCuda, ParameterValidation1 i1 = .ok () ∨
      ParameterValidation1 i1 = .error "Bad input parameters in image function") ∧
    (∀ i1 i2 : ImageCuda, ParameterValidation2 i1 i2 = .ok () ∨
      ParameterValidation2 i1 i2 = .error "Bad input parameters in image function") ∧
    (∀ i1 i2 i3 : ImageCuda, ParameterValidation3 i1 i2 i3 = .ok () ∨
      ParameterValidation3 i1 i2 i3 = .error "Bad input parameters in image function") ∧
    (∀ (inp out : ImageCuda) (a gamma : ℚ) (pw : ℚ → ℚ → ℚ),
      a < 0 ∨ gamma < 0 →
      (Image_Function_Cuda.GammaCorrection_inPlace inp out a gamma pw).2 =
        .error "Bad input parameters in image function") := by
  refine ⟨fun i1 => ParameterValidation1_cases i1,
          fun i1 i2 => ParameterValidation2_cases i1 i2,
          fun i1 i2 i3 => ParameterValidation3_cases i1 i2 i3, ?_⟩
  intro inp out a gamma pw hneg
  unfold Image_Function_Cuda.GammaCorrection_inPlace
  rcases ParameterValidation2_cases inp out with h | h
  · simp only [h, if_pos hneg]
    rfl
  · simp only [h]
    rfl

theorem c9_uniform_error_message_witness :
    ((-1 : ℚ) < 0 ∨ (1 : ℚ) < 0) ∧
    (Image_Function_Cuda.GammaCorrection_inPlace ⟨1, 1, [5]⟩ ⟨1, 1, [0]⟩
        (-1) 1 (fun _ _ => 0)).2 =
      .error "Bad input parameters in image function" :=
  ⟨Or.inl (by norm_num),
   c9_uniform_error_message.2.2.2 ⟨1, 1, [5]⟩ ⟨1, 1, [0]⟩ (-1) 1 (fun _ _ => 0)
     (Or.inl (by norm_num))⟩

/-- C10: with `a ≥ 0` and a non-negative `pow` value for every base
(the case whenever `gamma ≥ 0`), the value `a * pow(i, gamma) + 0.5`
computed for each of the 256 table entries is non-negative — so the
narrowing cast never truncates a negative — and every entry of the
lookup table is at most 255 (values of 256 or more are clamped), hence
in `[0, 255]`. -/
theorem c10_gamma_table_range (a gamma : ℚ) (pw : ℚ → ℚ → ℚ)
    (ha : 0 ≤ a) (hpw : ∀ i : Nat, i < 256 → 0 ≤ pw (i : ℚ) gamma) :
    ∀ i : Nat, i < 256 →
      0 ≤ a * pw (i : ℚ) gamma + 1 / 2 ∧
      (gammaTable a gamma pw).getD i 0 = gammaTableEntry a (pw (i : ℚ) gamma) ∧
      (gammaTable a gamma pw).getD i 0 ≤ 255 := by
  intro i hi
  have hnn : 0 ≤ a * pw (i : ℚ) gamma + 1 / 2 := by
    have hmul := mul_nonneg ha (hpw i hi)
    linarith
  refine ⟨hnn, gammaTable_getD hi, ?_⟩
  rw [gammaTable_getD hi]
  exact gammaTableEntry_le_255 _ _

theorem c10_gamma_table_range_witness :
    (0 ≤ (1 : ℚ)) ∧
    (0 ≤ (1 : ℚ) * (((3 : Nat) : ℚ) * ((3 : Nat) : ℚ)) + 1 / 2 ∧
      (gammaTable 1 2 (fun x _ : ℚ => x * x)).getD 3 0 =
        gammaTableEntry 1 (((3 : Nat) : ℚ) * ((3 : Nat) : ℚ)) ∧
      (gammaTable 1 2 (fun x _ : ℚ => x * x)).getD 3 0 ≤ 255) :=
  ⟨by norm_num,
   c10_gamma_table_range 1 2 (fun x _ : ℚ => x * x) (by norm_num)
     (fun i _ => mul_self_nonneg _) 3 (by norm_num)⟩

lemma GammaCorrection_inPlace_neg {inp out : ImageCuda} {a gamma : ℚ}
    {pw : ℚ → ℚ → ℚ} (hneg : a < 0 ∨ gamma < 0) :
    Image_Function_Cuda.GammaCorrection_inPlace inp out a gamma pw =
      ([], .error badParams) := by
  unfold Image_Function_Cuda.GammaCorrection_inPlace
  rcases ParameterValidation2_cases inp out with h | h
  · simp only [h, if_pos hneg]
  · simp only [h]

/-- C1 (amended): with `a < 0` or `gamma < 0` both GammaCorrection
forms fail with the validation error and launch no kernel; the in-place
form performs no device effect at all (no allocation, no launch), while
the allocating form constructs the output image — a device allocation —
before the parameter check, so on its path an allocation does occur. -/
theorem c1_gamma_invalid_argument (inp out : ImageCuda) (a gamma : ℚ)
    (pw : ℚ → ℚ → ℚ) (hneg : a < 0 ∨ gamma < 0) :
    Image_Function_Cuda.GammaCorrection_inPlace inp out a gamma pw =
      ([], .error badParams) ∧
    (Image_Function_Cuda.GammaCorrection inp a gamma pw).2 = .error badParams ∧
    ∀ e ∈ (Image_Function_Cuda.GammaCorrection inp a gamma pw).1,
      ∀ b t : Nat, e ≠ Effect.kernelLaunch b t := by
  refine ⟨GammaCorrection_inPlace_neg hneg, ?_, ?_⟩
  · unfold Image_Function_Cuda.GammaCorrection
    rcases ParameterValidation1_cases inp with h | h
    · simp only [h, GammaCorrection_inPlace_neg hneg]
    · simp only [h]
  · unfold Image_Function_Cuda.GammaCorrection
    rcases ParameterValidation1_cases inp with h | h
    · simp only [h, GammaCorrection_inPlace_neg hneg]
      intro e he b t
      simp only [List.mem_singleton] at he
      subst he
      intro hcontra
      exact Effect.noConfusion hcontra
    · simp only [h]
      intro e he
      exact absurd he (List.not_mem_nil e)

theorem c1_gamma_invalid_argument_witness :
    ((-1 : ℚ) < 0 ∨ (0 : ℚ) < 0) ∧
    Image_Function_Cuda.GammaCorrection_inPlace ⟨1, 1, [5]⟩ ⟨1, 1, [0]⟩ (-1) 0
      (fun _ _ => 0) = ([], .error badParams) :=
  ⟨Or.inl (by norm_num),
   (c1_gamma_invalid_argument ⟨1, 1, [5]⟩ ⟨1, 1, [0]⟩ (-1) 0 (fun _ _ => 0)
      (Or.inl (by norm_num))).1⟩

/-- C1 counterexample: on a valid 1×1 device image with `a = -1` the
allocating GammaCorrection constructs the output image — a device
allocation — and only then fails the `a < 0` check: a device allocation
is performed on this InvalidArgument path, contrary to the claim. -/
theorem c1_counterexample :
    (Image_Function_Cuda.GammaCorrection ⟨1, 1, [0]⟩ (-1) 1 (fun _ _ => 0)).1 =
      [Effect.devAlloc 1 1] ∧
    (Image_Function_Cuda.GammaCorrection ⟨1, 1, [0]⟩ (-1) 1 (fun _ _ => 0)).2 =
      .error badParams := by
  constructor
  · rfl
  · rfl

lemma runKernel2_launch_getD (op : Nat → Nat → Nat) (d1 d2 dout : List Nat)
    {w h : Nat} (hOlen : dout.length = w * h) (hbound : w * h ≤ 2 ^ 32 - 256)
    {i : Nat} (hi : i < w * h) :
    (runKernel2 op d1 d2 dout ((w * h) % 2 ^ 32)
      ((getKernelParameters ((w * h) % 2 ^ 32)).1 *
       (getKernelParameters ((w * h) % 2 ^ 32)).2)).getD i 0 =
      op (d1.getD i 0) (d2.getD i 0) := by
  have hmod : (w * h) % 2 ^ 32 = w * h := Nat.mod_eq_of_lt (by omega)
  rw [hmod, runKernel2_getD]
  have hcond : i < w * h ∧
      i < (getKernelParameters (w * h)).1 * (getKernelParameters (w * h)).2 ∧
      i < dout.length :=
    ⟨hi, lt_of_lt_of_le hi (getKernelParameters_covers hbound), by omega⟩
  rw [if_pos hcond]

lemma runKernel2_comm_ext {op : Nat → Nat → Nat}
    (hop : ∀ a b, op a b = op b a) (d1 d2 o : List Nat) (s t : Nat) :
    runKernel2 op d1 d2 o s t = runKernel2 op d2 d1 o s t := by
  apply List.ext_getElem
  · rw [runKernel2_length, runKernel2_length]
  · intro i h1 h2
    rw [← getD_eq_getElem_of_lt h1, ← getD_eq_getElem_of_lt h2,
      runKernel2_getD, runKernel2_getD, hop (d1.getD i 0)]

lemma runKernel2_self_ext {op : Nat → Nat → Nat} (hop : ∀ a, op a a = a)
    {d o : List Nat} {s t : Nat} (hlen : o.length = d.length)
    (hs : d.length ≤ s) (ht : d.length ≤ t) :
    runKernel2 op d d o s t = d := by
  apply List.ext_getElem
  · rw [runKernel2_length, hlen]
  · intro i h1 h2
    rw [← getD_eq_getElem_of_lt h1, runKernel2_getD]
    have hcond : i < s ∧ i < t ∧ i < o.length := by omega
    rw [if_pos hcond, hop]
    exact getD_eq_getElem_of_lt h2

/-- C3 (amended): for valid same-sized device images whose element
count is at most `2^32 - 256` (so the `uint32_t` size computation does
not wrap and the grid covers all pixels), Subtract — in-place and
allocating form — produces at every index `i` the value 0 whenever
`A[i] ≤ B[i]` and `A[i] - B[i]` otherwise; the result byte is always in
`[0, 255]` and never wraps below zero. -/
theorem c3_subtract_saturating (A B out : ImageCuda)
    (hA : A.valid) (hB : B.valid) (hO : out.valid)
    (hw : A.width = B.width) (hh : A.height = B.height)
    (hwo : A.width = out.width) (hho : A.height = out.height)
    (hpw : 0 < A.width) (hph : 0 < A.height)
    (hbound : A.width * A.height ≤ 2 ^ 32 - 256) :
    (∃ res : ImageCuda,
      (Image_Function_Cuda.Subtract_inPlace A B out).2 = .ok res ∧
      ∀ i : Nat, i < A.width * A.height →
        (A.data.getD i 0 ≤ B.data.getD i 0 → res.data.getD i 0 = 0) ∧
        (B.data.getD i 0 < A.data.getD i 0 →
          res.data.getD i 0 = A.data.getD i 0 - B.data.getD i 0) ∧
        res.data.getD i 0 ≤ 255) ∧
    (∃ res2 : ImageCuda,
      (Image_Function_Cuda.Subtract A B).2 = .ok res2 ∧
      ∀ i : Nat, i < A.width * A.height →
        (A.data.getD i 0 ≤ B.data.getD i 0 → res2.data.getD i 0 = 0) ∧
        (B.data.getD i 0 < A.data.getD i 0 →
          res2.data.getD i 0 = A.data.getD i 0 - B.data.getD i 0) ∧
        res2.data.getD i 0 ≤ 255) := by
  have pointwise : ∀ d : Nat, ∀ i : Nat, i < A.width * A.height →
      d = subtractPixel (A.data.getD i 0) (B.data.getD i 0) →
      (A.data.getD i 0 ≤ B.data.getD i 0 → d = 0) ∧
      (B.data.getD i 0 < A.data.getD i 0 →
        d = A.data.getD i 0 - B.data.getD i 0) ∧ d ≤ 255 := by
    intro d i hi hd
    subst hd
    refine ⟨fun hle => ?_, fun hlt => ?_, ?_⟩
    · rw [subtractPixel_eq, if_pos hle]
    · rw [subtractPixel_eq, if_neg (by omega)]
    · have hAi : A.data.getD i 0 < 256 := valid_byte_lt hA (by rw [hA.1]; exact hi)
      have := subtractPixel_le_left (A.data.getD i 0) (B.data.getD i 0)
      omega
  constructor
  · have h3 := ParameterValidation3_ok hpw hph hw hh hwo hho
    refine ⟨_, by rw [Subtract_inPlace_eval h3], ?_⟩
    intro i hi
    apply pointwise _ i hi
    show (runKernel2 subtractPixel A.data B.data out.data
        ((out.width * out.height) % 2 ^ 32) _).getD i 0 = _
    rw [← hwo, ← hho]
    exact runKernel2_launch_getD subtractPixel A.data B.data out.data
      (by rw [hO.1, ← hwo, ← hho]) hbound hi
  · have h2 := ParameterValidation2_ok hpw hph hw hh
    have h3c : ParameterValidation3 A B (ImageCuda.construct A.width A.height) =
        .ok () := ParameterValidation3_ok hpw hph hw hh rfl rfl
    refine ⟨_, by rw [Subtract_alloc_eval h2, Subtract_inPlace_eval h3c], ?_⟩
    intro i hi
    apply pointwise _ i hi
    show (runKernel2 subtractPixel A.data B.data
        (ImageCuda.construct A.width A.height).data
        (((ImageCuda.construct A.width A.height).width *
          (ImageCuda.construct A.width A.height).height) % 2 ^ 32) _).getD i 0 = _
    exact runKernel2_launch_getD subtractPixel A.data B.data _
      (by simp [ImageCuda.construct]) hbound hi

theorem c3_subtract_saturating_witness :
    (⟨2, 1, [9, 3]⟩ : ImageCuda).valid ∧ (⟨2, 1, [3, 5]⟩ : ImageCuda).valid ∧
    (⟨2, 1, [7, 7]⟩ : ImageCuda).valid ∧ 2 * 1 ≤ 2 ^ 32 - 256 ∧
    (∃ res : ImageCuda,
      (Image_Function_Cuda.Subtract_inPlace ⟨2, 1, [9, 3]⟩ ⟨2, 1, [3, 5]⟩
          ⟨2, 1, [7, 7]⟩).2 = .ok res ∧
      ∀ i : Nat, i < 2 * 1 →
        (List.getD [9, 3] i 0 ≤ List.getD [3, 5] i 0 → res.data.getD i 0 = 0) ∧
        (List.getD [3, 5] i 0 < List.getD [9, 3] i 0 →
          res.data.getD i 0 = List.getD [9, 3] i 0 - List.getD [3, 5] i 0) ∧
        res.data.getD i 0 ≤ 255) :=
  ⟨by decide, by decide, by decide, by decide,
   (c3_subtract_saturating ⟨2, 1, [9, 3]⟩ ⟨2, 1, [3, 5]⟩ ⟨2, 1, [7, 7]⟩
      (by decide) (by decide) (by decide) rfl rfl rfl rfl (by decide) (by decide)
      (by decide)).1⟩

/-- A valid 65536×65536 device image filled with one byte value: its
element count 2^32 is wrapped to 0 by the `uint32_t` product
`width * height`. -/
def giantNine : ImageCuda := ⟨65536, 65536, List.replicate 4294967296 9⟩

/-- Companion 65536×65536 image filled with 3. -/
def giantThree : ImageCuda := ⟨65536, 65536, List.replicate 4294967296 3⟩

/-- Companion 65536×65536 image filled with 7, used as output buffer. -/
def giantSeven : ImageCuda := ⟨65536, 65536, List.replicate 4294967296 7⟩

lemma giant_valid (b : Nat) (hb : b < 256) :
    (ImageCuda.mk 65536 65536 (List.replicate 4294967296 b)).valid := by
  refine ⟨?_, by norm_num, by norm_num, ?_⟩
  · rw [List.length_replicate]
    norm_num
  · intro x hx
    rw [List.mem_replicate] at hx
    omega

lemma runKernel2_zero (op : Nat → Nat → Nat) (d1 d2 o : List Nat) (s : Nat) :
    runKernel2 op d1 d2 o s 0 = o := rfl

/-- C3 counterexample: on valid 65536×65536 images the `uint32_t`
element count `out.width() * out.height()` wraps to 0, the launch
covers no pixel, and the in-place Subtract returns the output buffer
untouched: at index 0 the result still holds the stale byte 7 rather
than 9 - 3 = 6 as the claim requires. -/
theorem c3_counterexample :
    giantNine.valid ∧ giantThree.valid ∧ giantSeven.valid ∧
    giantNine.data.getD 0 0 = 9 ∧ giantThree.data.getD 0 0 = 3 ∧
    ∃ res : ImageCuda,
      (Image_Function_Cuda.Subtract_inPlace giantNine giantThree giantSeven).2 =
        .ok res ∧ res.data.getD 0 0 = 7 ∧ ¬res.data.getD 0 0 = 9 - 3 := by
  refine ⟨giant_valid 9 (by norm_num), giant_valid 3 (by norm_num),
    giant_valid 7 (by norm_num), ?_, ?_, ?_⟩
  · show (List.replicate 4294967296 9).getD 0 0 = 9
    rw [List.getD_eq_getElem?_getD, List.getElem?_replicate, if_pos (by norm_num)]
    rfl
  · show (List.replicate 4294967296 3).getD 0 0 = 3
    rw [List.getD_eq_getElem?_getD, List.getElem?_replicate, if_pos (by norm_num)]
    rfl
  · have h3 : ParameterValidation3 giantNine giantThree giantSeven = .ok () :=
      ParameterValidation3_ok (by decide) (by decide) rfl rfl rfl rfl
    refine ⟨_, by rw [Subtract_inPlace_eval h3], ?_⟩
    have hs : (giantSeven.width * giantSeven.height) % 2 ^ 32 = 0 := by decide
    have hT : (getKernelParameters 0).1 * (getKernelParameters 0).2 = 0 := by decide
    show (runKernel2 subtractPixel giantNine.data giantThree.data giantSeven.data
        ((giantSeven.width * giantSeven.height) % 2 ^ 32)
        ((getKernelParameters ((giantSeven.width * giantSeven.height) % 2 ^ 32)).1 *
         (getKernelParameters ((giantSeven.width * giantSeven.height) % 2 ^ 32)).2)).getD 0 0 = 7 ∧ _
    rw [hs, hT, runKernel2_zero]
    constructor
    · show (List.replicate 4294967296 7).getD 0 0 = 7
      rw [List.getD_eq_getElem?_getD, List.getElem?_replicate, if_pos (by norm_num)]
      rfl
    · show ¬(List.replicate 4294967296 7).getD 0 0 = 9 - 3
      rw [List.getD_eq_getElem?_getD, List.getElem?_replicate, if_pos (by norm_num)]
      norm_num

/-- C7 (amended): for valid same-sized device images whose element
count is at most `2^32 - 256` (so the `uint32_t` size computation does
not wrap and the grid covers all pixels), AbsoluteDifference is
commutative, Maximum and Minimum are commutative and idempotent
(`op(A,A) = A`), and `Minimum(A,B) ≤ Maximum(A,B)` holds pointwise at
every index. -/
theorem c7_algebraic_identities (A B : ImageCuda)
    (hA : A.valid) (hB : B.valid)
    (hw : A.width = B.width) (hh : A.height = B.height)
    (hpw : 0 < A.width) (hph : 0 < A.height)
    (hbound : A.width * A.height ≤ 2 ^ 32 - 256) :
    (Image_Function_Cuda.AbsoluteDifference A B).2 =
      (Image_Function_Cuda.AbsoluteDifference B A).2 ∧
    (Image_Function_Cuda.Maximum A B).2 = (Image_Function_Cuda.Maximum B A).2 ∧
    (Image_Function_Cuda.Minimum A B).2 = (Image_Function_Cuda.Minimum B A).2 ∧
    (Image_Function_Cuda.Maximum A A).2 = .ok A ∧
    (Image_Function_Cuda.Minimum A A).2 = .ok A ∧
    (∃ mres xres : ImageCuda,
      (Image_Function_Cuda.Minimum A B).2 = .ok mres ∧
      (Image_Function_Cuda.Maximum A B).2 = .ok xres ∧
      ∀ i : Nat, mres.data.getD i 0 ≤ xres.data.getD i 0) := by
  have hpwB : 0 < B.width := hw ▸ hpw
  have hphB : 0 < B.height := hh ▸ hph
  have hmod : (A.width * A.height) % 2 ^ 32 = A.width * A.height :=
    Nat.mod_eq_of_lt (by omega)
  have h2ab := ParameterValidation2_ok hpw hph hw hh
  have h2ba := ParameterValidation2_ok hpwB hphB hw.symm hh.symm
  have h2aa := ParameterValidation2_ok hpw hph rfl rfl
  have h3ab : ParameterValidation3 A B (ImageCuda.construct A.width A.height) =
      .ok () := ParameterValidation3_ok hpw hph hw hh rfl rfl
  have h3ba : ParameterValidation3 B A (ImageCuda.construct B.width B.height) =
      .ok () := ParameterValidation3_ok hpwB hphB hw.symm hh.symm rfl rfl
  have h3aa : ParameterValidation3 A A (ImageCuda.construct A.width A.height) =
      .ok () := ParameterValidation3_ok hpw hph rfl rfl rfl rfl
  refine ⟨?_, ?_, ?_, ?_, ?_, ?_⟩
  · simp only [AbsoluteDifference_alloc_eval h2ab, AbsoluteDifference_alloc_eval h2ba]
    simp only [AbsoluteDifference_inPlace_eval h3ab, AbsoluteDifference_inPlace_eval h3ba]
    simp only [ImageCuda.construct]
    rw [← hw, ← hh, runKernel2_comm_ext absoluteDifferencePixel_comm]
  · simp only [Maximum_alloc_eval h2ab, Maximum_alloc_eval h2ba]
    simp only [Maximum_inPlace_eval h3ab, Maximum_inPlace_eval h3ba]
    simp only [ImageCuda.construct]
    rw [← hw, ← hh, runKernel2_comm_ext maximumPixel_comm]
  · simp only [Minimum_alloc_eval h2ab, Minimum_alloc_eval h2ba]
    simp only [Minimum_inPlace_eval h3ab, Minimum_inPlace_eval h3ba]
    simp only [ImageCuda.construct]
    rw [← hw, ← hh, runKernel2_comm_ext minimumPixel_comm]
  · simp only [Maximum_alloc_eval h2aa]
    simp only [Maximum_inPlace_eval h3aa]
    simp only [ImageCuda.construct]
    rw [hmod, runKernel2_self_ext maximumPixel_self
      (by rw [List.length_replicate, hA.1]) (le_of_eq hA.1)
      (by rw [hA.1]; exact getKernelParameters_covers hbound)]
  · simp only [Minimum_alloc_eval h2aa]
    simp only [Minimum_inPlace_eval h3aa]
    simp only [ImageCuda.construct]
    rw [hmod, runKernel2_self_ext minimumPixel_self
      (by rw [List.length_replicate, hA.1]) (le_of_eq hA.1)
      (by rw [hA.1]; exact getKernelParameters_covers hbound)]
  · refine ⟨_, _, by simp only [Minimum_alloc_eval h2ab]; simp only
      [Minimum_inPlace_eval h3ab]; simp only [ImageCuda.construct]; exact rfl,
      by simp only [Maximum_alloc_eval h2ab]; simp only
        [Maximum_inPlace_eval h3ab]; simp only [ImageCuda.construct]; exact rfl, ?_⟩
    intro i
    show (runKernel2 minimumPixel A.data B.data _ _ _).getD i 0 ≤
      (runKernel2 maximumPixel A.data B.data _ _ _).getD i 0
    rw [runKernel2_getD, runKernel2_getD]
    split
    · exact minimumPixel_le_maximumPixel _ _
    · rw [replicate_zero_getD]

theorem c7_algebraic_identities_witness :
    (⟨1, 1, [5]⟩ : ImageCuda).valid ∧ (⟨1, 1, [9]⟩ : ImageCuda).valid ∧
    (Image_Function_Cuda.AbsoluteDifference ⟨1, 1, [5]⟩ ⟨1, 1, [9]⟩).2 =
      (Image_Function_Cuda.AbsoluteDifference ⟨1, 1, [9]⟩ ⟨1, 1, [5]⟩).2 ∧
    (Image_Function_Cuda.Maximum ⟨1, 1, [5]⟩ ⟨1, 1, [5]⟩).2 = .ok ⟨1, 1, [5]⟩ :=
  ⟨by decide, by decide,
   (c7_algebraic_identities ⟨1, 1, [5]⟩ ⟨1, 1, [9]⟩ (by decide) (by decide)
      rfl rfl (by decide) (by decide) (by decide)).1,
   (c7_algebraic_identities ⟨1, 1, [5]⟩ ⟨1, 1, [9]⟩ (by decide) (by decide)
      rfl rfl (by decide) (by decide) (by decide)).2.2.2.1⟩

/-- C7 counterexample: idempotence fails on a valid 65536×65536 image.
The `uint32_t` element count wraps to 0, no pixel is written, and the
allocating Maximum returns the freshly allocated (zero-modelled, in any
case unwritten) buffer instead of A: `Maximum(A,A) ≠ A`. -/
theorem c7_counterexample :
    giantNine.valid ∧
    (Image_Function_Cuda.Maximum giantNine giantNine).2 ≠ .ok giantNine := by
  refine ⟨giant_valid 9 (by norm_num), ?_⟩
  have h2 : ParameterValidation2 giantNine giantNine = .ok () :=
    ParameterValidation2_ok (by decide) (by decide) rfl rfl
  have h3 : ParameterValidation3 giantNine giantNine
      (ImageCuda.construct giantNine.width giantNine.height) = .ok () :=
    ParameterValidation3_ok (by decide) (by decide) rfl rfl rfl rfl
  have hs : (giantNine.width * giantNine.height) % 2 ^ 32 = 0 := by decide
  have hT : (getKernelParameters 0).1 * (getKernelParameters 0).2 = 0 := by decide
  have heval : (Image_Function_Cuda.Maximum giantNine giantNine).2 =
      .ok (ImageCuda.mk 65536 65536 (List.replicate 4294967296 0)) := by
    simp only [Maximum_alloc_eval h2]
    simp only [Maximum_inPlace_eval h3]
    simp only [ImageCuda.construct]
    rw [show giantNine.width * giantNine.height = 4294967296 from rfl]
    rw [show (4294967296 : Nat) % 2 ^ 32 = 0 from by norm_num, hT, runKernel2_zero]
    rfl
  rw [heval]
  intro hcontra
  have h1 : ImageCuda.mk 65536 65536 (List.replicate 4294967296 0) = giantNine :=
    Except.ok.inj hcontra
  have h01 := congrArg (fun im : ImageCuda => im.data.getD 0 0) h1
  simp only [giantNine] at h01
  rw [List.getD_eq_getElem?_getD, List.getElem?_replicate, if_pos (by norm_num)] at h01
  rw [List.getD_eq_getElem?_getD, List.getElem?_replicate, if_pos (by norm_num)] at h01
  exact absurd h01 (by norm_num)

/-- C6: converting a host image to a dimension-matching device image
and back yields byte-identical pixel data, for host images with
`rowSize = width` and `rowSize > width` (padded rows) alike: each of
the `height` row copies moves exactly `width` bytes, reconciling the
two strides in both directions. -/
theorem c6_transfer_roundtrip (H : Bitmap_Image.Image) (D : ImageCuda)
    (hH : H.valid) (hD : D.data.length = D.width * D.height)
    (hw : H.width = D.width) (hh : H.height = D.height)
    (hpw : 0 < H.width) (hph : 0 < H.height) :
    ∃ (D2 : ImageCuda) (H2 : Bitmap_Image.Image),
      Image_Function_Cuda.Convert_toCuda H D = .ok D2 ∧
      Image_Function_Cuda.Convert_fromCuda D2 H = .ok H2 ∧
      H2.width = H.width ∧ H2.height = H.height ∧ H2.rowSize = H.rowSize ∧
      ∀ r : Nat, r < H.height → ∀ c : Nat, c < H.width →
        H2.data.getD (r * H.rowSize + c) 0 = H.data.getD (r * H.rowSize + c) 0 := by
  have hhost := hostParameterValidation_ok hpw hph
  have hdev1 : ParameterValidation1 D = .ok () :=
    ParameterValidation1_ok (hw ▸ hpw) (hh ▸ hph)
  have hDlen : H.height * D.width ≤ D.data.length := by
    rw [hD, ← hw, ← hh, Nat.mul_comm]
  have hHlen : H.height * H.rowSize ≤ H.data.length := le_of_eq hH.2.symm
  have hwd : D.width ≤ H.rowSize := hw ▸ hH.1
  have htoC : Image_Function_Cuda.Convert_toCuda H D =
      .ok (ImageCuda.mk D.width D.height
        (rowByRowCopy D.data H.data H.height D.width H.rowSize D.width)) := by
    unfold Image_Function_Cuda.Convert_toCuda
    simp only [hhost, hdev1]
    have hcond : ¬(H.width != D.width || H.height != D.height) = true := by
      simp [hw, hh]
    rw [if_neg hcond, hh]
  have hD2len : (rowByRowCopy D.data H.data H.height D.width H.rowSize D.width).length =
      D.data.length :=
    rowByRowCopy_length D.data H.data H.height D.width H.rowSize D.width
      (Nat.le_refl _) hDlen
  have hfromC : Image_Function_Cuda.Convert_fromCuda
      (ImageCuda.mk D.width D.height
        (rowByRowCopy D.data H.data H.height D.width H.rowSize D.width)) H =
      .ok (Bitmap_Image.Image.mk H.width H.height H.rowSize
        (rowByRowCopy H.data
          (rowByRowCopy D.data H.data H.height D.width H.rowSize D.width)
          H.height H.rowSize D.width D.width)) := by
    unfold Image_Function_Cuda.Convert_fromCuda
    have hdev2 : ParameterValidation1 (ImageCuda.mk D.width D.height
        (rowByRowCopy D.data H.data H.height D.width H.rowSize D.width)) = .ok () :=
      ParameterValidation1_ok (hw ▸ hpw) (hh ▸ hph)
    simp only [hdev2, hhost]
    have hcond : ¬((ImageCuda.mk D.width D.height
        (rowByRowCopy D.data H.data H.height D.width H.rowSize D.width)).width != H.width ||
        (ImageCuda.mk D.width D.height
          (rowByRowCopy D.data H.data H.height D.width H.rowSize D.width)).height != H.height) = true := by
      simp [hw, hh]
    rw [if_neg hcond]
  refine ⟨_, _, htoC, hfromC, rfl, rfl, rfl, ?_⟩
  intro r hr c hc
  have hcD : c < D.width := hw ▸ hc
  have h1 := rowByRowCopy_getD H.data
    (rowByRowCopy D.data H.data H.height D.width H.rowSize D.width)
    H.height H.rowSize D.width D.width hwd (Nat.le_refl _) hHlen
    (by rw [hD2len]; exact hDlen) r hr c hcD
  have h2 := rowByRowCopy_getD D.data H.data H.height D.width H.rowSize D.width
    (Nat.le_refl _) hwd hDlen hHlen r hr c hcD
  show (rowByRowCopy H.data
      (rowByRowCopy D.data H.data H.height D.width H.rowSize D.width)
      H.height H.rowSize D.width D.width).getD (r * H.rowSize + c) 0 =
    H.data.getD (r * H.rowSize + c) 0
  rw [h1, h2]

theorem c6_transfer_roundtrip_witness :
    (⟨2, 2, 3, [1, 2, 99, 3, 4, 98]⟩ : Bitmap_Image.Image).valid ∧
    ∃ (D2 : ImageCuda) (H2 : Bitmap_Image.Image),
      Image_Function_Cuda.Convert_toCuda ⟨2, 2, 3, [1, 2, 99, 3, 4, 98]⟩
        ⟨2, 2, [5, 5, 5, 5]⟩ = .ok D2 ∧
      Image_Function_Cuda.Convert_fromCuda D2 ⟨2, 2, 3, [1, 2, 99, 3, 4, 98]⟩ =
        .ok H2 ∧
      H2.width = 2 ∧ H2.height = 2 ∧ H2.rowSize = 3 ∧
      ∀ r : Nat, r < 2 → ∀ c : Nat, c < 2 →
        H2.data.getD (r * 3 + c) 0 = List.getD [1, 2, 99, 3, 4, 98] (r * 3 + c) 0 :=
  ⟨by decide,
   c6_transfer_roundtrip ⟨2, 2, 3, [1, 2, 99, 3, 4, 98]⟩ ⟨2, 2, [5, 5, 5, 5]⟩
     (by decide) (by decide) rfl rfl (by decide) (by decide)⟩
